import Mathlib

/-!
Shallow embedding of `src/static/app.js` — a browser-side chat widget
controller.  The DOM and the network are modelled explicitly:

* the mutable view state (input field, submit button, welcome panel, the
  children of the `chatMessages` container, pending one-shot timers) is a
  `ChatState` record threaded through each operation;
* JavaScript exceptions are modelled with `Except JsError` / an
  `Option JsError` component in the result, and `try/catch/finally` by the
  corresponding explicit branching;
* the network (`fetch` + `response.json()`) is an oracle `FetchOutcome`
  supplied by the environment: a transport failure, or an HTTP response with
  an `ok` flag and the result of parsing its body;
* JavaScript `undefined` for the optional `answer` field is `Option.none`
  (`data.answer` on a body without that key yields `undefined`);
* `new Date()` is an ambient clock `Env.now`; `setTimeout` appends a
  pending `Timer` (delay, callback) which a separate `fireTimer` semantics
  executes against the view that exists when the timer fires.

Each Lean definition is named after the JS function/method it embeds.
-/

namespace ChatApp

/-- A JavaScript exception value.  `err m` is `new Error(m)`; `typeError`
models a rejected `fetch` or a null-dereference; `syntaxError` models a
rejected `response.json()` on an unparsable body. -/
inductive JsError where
  | err (msg : String)
  | typeError (msg : String)
  | syntaxError (msg : String)
deriving DecidableEq, Repr

/-- Message sender: the `"user"` / `"ai"` strings of `app.js`. -/
inductive Sender where
  | user
  | ai
deriving DecidableEq, Repr

/-- `ChatMessage` constructor state: content (possibly `undefined`), sender,
and the `new Date()` timestamp. -/
structure ChatMessage where
  content : Option String
  sender : Sender
  timestamp : Nat
deriving DecidableEq, Repr

/-- One child of the `chatMessages` container.  Every appended element gets a
fresh numeric identity so that a timer callback can refer to it. -/
inductive ChatNode where
  | message (id : Nat) (msg : ChatMessage)
  | typing (id : Nat)
  | errorNotice (id : Nat) (text : String)
deriving DecidableEq, Repr

/-- One entry of `conversationHistory`:
`{ question, answer, timestamp }` as pushed by `handleResponse`. -/
structure LogEntry where
  question : String
  answer : Option String
  timestamp : Nat
deriving DecidableEq, Repr

/-- The callback closed over by a `setTimeout` call.
`removeNode target` is `errorElement.remove()` with the captured element;
`scrollSettle chatMain` is the scroll callback with the captured result of
`document.querySelector(".chat-main")` — `none` when that lookup returned
`null` at scheduling time. -/
inductive TimerCb where
  | removeNode (target : Nat)
  | scrollSettle (chatMain : Option Nat)
deriving DecidableEq, Repr

/-- A pending single-shot timer: delay in milliseconds plus its callback. -/
structure Timer where
  delay : Nat
  cb : TimerCb
deriving DecidableEq, Repr

/-- Observable orchestration events, emitted in program order so that the
claimed operation sequence can be stated about a run. -/
inductive Event where
  | hideWelcome
  | renderUser (content : Option String)
  | clearInput
  | setBusy (isLoading : Bool)
  | showTyping
  | renderAssistant (content : Option String)
  | appendLog
  | renderError
  | clearTyping
deriving DecidableEq, Repr

/-- The mutable UI state touched by `app.js`.  `inputHeight = none` models
`style.height = "auto"`. -/
structure ChatState where
  inputValue : String
  inputHeight : Option Nat
  submitDisabled : Bool
  inputDisabled : Bool
  btnIconVisible : Bool
  spinnerVisible : Bool
  welcomeVisible : Bool
  chatChildren : List ChatNode
  conversationHistory : List LogEntry
  timers : List Timer
  nextId : Nat
  events : List Event
deriving DecidableEq, Repr

/-- The parse of a JSON response body, restricted to the two fields the
program reads: `answer` (success bodies) and `error` (failure bodies).
A missing key reads as `undefined`, i.e. `none`. -/
structure JsonBody where
  answer : Option String
  error : Option String
deriving DecidableEq, Repr

/-- The environment's response to the one `fetch` of an exchange.
`networkFailure` rejects the `fetch` promise itself; `response ok body`
is an HTTP response with status-`ok` flag and the parse of its body
(`none` = `response.json()` rejects). -/
inductive FetchOutcome where
  | networkFailure
  | response (ok : Bool) (body : Option JsonBody)
deriving DecidableEq, Repr

/-- Ambient inputs of one submission run: the network oracle, fault oracles
for the two `addMessage` DOM calls (a `some` models the DOM call throwing),
the `querySelector(".chat-main")` result, and the clock. -/
structure Env where
  outcome : FetchOutcome
  userFault : Option JsError
  aiFault : Option JsError
  chatMain : Option Nat
  now : Nat
deriving DecidableEq, Repr

/-- JS whitespace recognized by `String.prototype.trim` (the ASCII subset;
exotic Unicode space characters are not modelled). -/
def isJsWhitespace (c : Char) : Bool :=
  c = ' ' || c = '\t' || c = '\n' || c = '\r' || c = '\x0b' || c = '\x0c'

/-- `value.trim()`. -/
def jsTrim (s : String) : String :=
  ⟨((s.data.dropWhile isJsWhitespace).reverse.dropWhile isJsWhitespace).reverse⟩

/-- JS `v || fallback` on an optional string (`undefined` and `""` are both
falsy). -/
def jsOr (v : Option String) (fallback : String) : String :=
  match v with
  | some s => if s = "" then fallback else s
  | none => fallback

/-- `hideWelcomeScreen()`: sets `welcomeScreen.style.display = "none"`. -/
def hideWelcomeScreen (s : ChatState) : ChatState :=
  { s with welcomeVisible := false, events := s.events ++ [.hideWelcome] }

/-- `clearInput()`: empties the field and resets its height to `"auto"`. -/
def clearInput (s : ChatState) : ChatState :=
  { s with inputValue := "", inputHeight := none, events := s.events ++ [.clearInput] }

/-- `autoResizeInput(event)`: reset height to `"auto"`, then set it to the
field's `scrollHeight` (supplied by the layout engine). -/
def autoResizeInput (scrollHeight : Nat) (s : ChatState) : ChatState :=
  { s with inputHeight := some scrollHeight }

/-- `setLoadingState(isLoading)`: toggles the disabled flags and swaps the
send icon and the spinner. -/
def setLoadingState (isLoading : Bool) (s : ChatState) : ChatState :=
  { s with submitDisabled := isLoading, inputDisabled := isLoading,
           btnIconVisible := !isLoading, spinnerVisible := isLoading,
           events := s.events ++ [.setBusy isLoading] }

/-- `scrollToBottom()`: captures `document.querySelector(".chat-main")`
immediately and schedules the scroll for 100 ms later. -/
def scrollToBottom (env : Env) (s : ChatState) : ChatState :=
  { s with timers := s.timers ++ [⟨100, .scrollSettle env.chatMain⟩] }

/-- The orchestration event recorded when a message element is appended. -/
def renderEvent (msg : ChatMessage) : Event :=
  match msg.sender with
  | .user => .renderUser msg.content
  | .ai => .renderAssistant msg.content

/-- `addMessage(chatMessage)`: appends the message element to
`chatMessages`, then calls `scrollToBottom()`.  `fault = some e` models the
DOM append throwing `e` (the exception surfaces before any mutation). -/
def addMessage (env : Env) (msg : ChatMessage) (fault : Option JsError)
    (s : ChatState) : ChatState × Option JsError :=
  match fault with
  | some e => (s, some e)
  | none =>
    let s' := { s with chatChildren := s.chatChildren ++ [.message s.nextId msg],
                       nextId := s.nextId + 1,
                       events := s.events ++ [renderEvent msg] }
    (scrollToBottom env s', none)

/-- `chatMessages.appendChild(TypingIndicator.create())`. -/
def appendTypingIndicator (s : ChatState) : ChatState :=
  { s with chatChildren := s.chatChildren ++ [.typing s.nextId],
           nextId := s.nextId + 1,
           events := s.events ++ [.showTyping] }

/-- Whether a chat node is the typing indicator (`id="typingIndicator"`). -/
def isTypingNode : ChatNode → Bool
  | .typing _ => true
  | _ => false

/-- Remove the first node carrying the `typingIndicator` id, as
`getElementById` + `remove()` does; no-op when absent. -/
def removeFirstTyping : List ChatNode → List ChatNode
  | [] => []
  | n :: rest => if isTypingNode n then rest else n :: removeFirstTyping rest

/-- `TypingIndicator.remove()`: looks the indicator up by id and removes it
if present (a no-op otherwise). -/
def typingRemove (s : ChatState) : ChatState :=
  { s with chatChildren := removeFirstTyping s.chatChildren,
           events := s.events ++ [.clearTyping] }

/-- `ErrorMessage` instances carry `this.duration = 5000`. -/
def errorMessageDuration : Nat := 5000

/-- The fixed user-facing notice text built in `handleError`. -/
def connectionFailureMsg : String :=
  "Failed to connect to the server. Please make sure the backend is running."

/-- `ErrorMessage.display(container)`: appends the notice element and
schedules `errorElement.remove()` after `duration` milliseconds, closing
over the appended element. -/
def errorDisplay (msg : String) (s : ChatState) : ChatState :=
  { s with chatChildren := s.chatChildren ++ [.errorNotice s.nextId msg],
           timers := s.timers ++ [⟨errorMessageDuration, .removeNode s.nextId⟩],
           nextId := s.nextId + 1,
           events := s.events ++ [.renderError] }

/-- `handleError(error)`: `console.error` is diagnostic only (not part of
the view state); the displayed notice is the fixed text, independent of the
caught error. -/
def handleError (e : JsError) (s : ChatState) : ChatState :=
  match e with
  | _ => errorDisplay connectionFailureMsg s

/-- `fetchAnswer(question)`: POSTs the question and awaits the response.
On `!response.ok` it parses the body and throws
`new Error(data.error || "Failed to get answer")`; on an ok status it
returns the parsed body.  Either `response.json()` rejects when the body is
unparsable, and `fetch` itself rejects on a network failure. -/
def fetchAnswer (outcome : FetchOutcome) : Except JsError JsonBody :=
  match outcome with
  | .networkFailure => .error (.typeError "Failed to fetch")
  | .response ok body =>
    if !ok then
      match body with
      | none => .error (.syntaxError "Unexpected end of JSON input")
      | some data => .error (.err (jsOr data.error "Failed to get answer"))
    else
      match body with
      | none => .error (.syntaxError "Unexpected end of JSON input")
      | some data => .ok data

/-- `conversationHistory.push(\x7b question, answer, timestamp \x7d)`. -/
def pushHistory (env : Env) (question : String) (answer : Option String)
    (s : ChatState) : ChatState :=
  { s with conversationHistory :=
             s.conversationHistory ++ [⟨question, answer, env.now⟩],
           events := s.events ++ [.appendLog] }

/-- `handleResponse(question, data)`: renders the assistant message
(`data.answer`, possibly `undefined`) and then pushes the history entry.
If the render throws, the push is never reached. -/
def handleResponse (env : Env) (question : String) (data : JsonBody)
    (s : ChatState) : ChatState × Option JsError :=
  match addMessage env ⟨data.answer, .ai, env.now⟩ env.aiFault s with
  | (s', some e) => (s', some e)
  | (s', none) => (pushHistory env question data.answer s', none)

/-- The straight-line prefix of `handleFormSubmit` executed before the
`try` block, for a non-empty trimmed question: hide welcome, render the
user's message, clear the input, set the loading state, append the typing
indicator. -/
def submitPrefix (env : Env) (question : String) (s : ChatState) :
    ChatState × Option JsError :=
  let s1 := hideWelcomeScreen s
  match addMessage env ⟨some question, .user, env.now⟩ env.userFault s1 with
  | (s2, some e) => (s2, some e)
  | (s2, none) =>
    let s3 := clearInput s2
    let s4 := setLoadingState true s3
    (appendTypingIndicator s4, none)

/-- `handleFormSubmit(event)`: trims the input, suppresses the submit when
the result is empty, otherwise runs the prefix, performs the exchange under
`try/catch`, and in `finally` sets the loading state back and removes the
typing indicator.  The `Option JsError` component is an exception escaping
the async function (only possible from the un-guarded prefix). -/
def handleFormSubmit (env : Env) (s : ChatState) : ChatState × Option JsError :=
  let question := jsTrim s.inputValue
  if question = "" then (s, none)
  else
    match submitPrefix env question s with
    | (s', some e) => (s', some e)
    | (sAsk, none) =>
      let afterTry :=
        match fetchAnswer env.outcome with
        | .ok data =>
          match handleResponse env question data sAsk with
          | (s', none) => s'
          | (s', some e) => handleError e s'
        | .error e => handleError e sAsk
      let sFin := setLoadingState false afterTry
      (typingRemove sFin, none)

/-- The attached-node view against which a pending timer eventually fires,
together with the record of elements scrolled to their bottom. -/
structure ViewState where
  attached : List Nat
  scrolled : List Nat
deriving DecidableEq, Repr

/-- Firing a pending timer callback against the view existing at that
moment.  `Element.remove()` on a detached element is a no-op and never
throws.  Assigning `scrollTop` on an element reference is harmless even if
the element has been detached, but when the captured `querySelector` result
was `null` the assignment throws a `TypeError`. -/
def fireTimer : TimerCb → ViewState → Except JsError ViewState
  | .removeNode target, v =>
    .ok { v with attached := v.attached.filter (fun n => n != target) }
  | .scrollSettle none, _ =>
    .error (.typeError "Cannot set properties of null (setting scrollTop)")
  | .scrollSettle (some n), v =>
    .ok (if n ∈ v.attached then { v with scrolled := n :: v.scrolled } else v)

/-- HTML fragment serialization of one character of a text node:
`innerHTML` escapes `&`, `<` and `>` in character data. -/
def serializeTextChar (c : Char) : List Char :=
  if c = '&' then ['&', 'a', 'm', 'p', ';']
  else if c = '<' then ['&', 'l', 't', ';']
  else if c = '>' then ['&', 'g', 't', ';']
  else [c]

/-- `div.innerHTML` after `div.textContent = content`: the serialization of
the single text node. -/
def serializeText : List Char → List Char
  | [] => []
  | c :: rest => serializeTextChar c ++ serializeText rest

/-- `.replace(/\n/g, "<br>")` on the serialized text. -/
def replaceNewlineBr : List Char → List Char
  | [] => []
  | c :: rest =>
    (if c = '\n' then ['<', 'b', 'r', '>'] else [c]) ++ replaceNewlineBr rest

/-- `ChatMessage.escapeHtml()`: serialize the content as a text node, then
turn every newline into a literal `<br>` tag.  A total function — malformed
content is escaped, never rejected. -/
def escapeHtml (content : List Char) : List Char :=
  replaceNewlineBr (serializeText content)

/-- Setting `div.textContent = content`: JS `undefined` converts to `null`,
which the DOM treats as the empty string. -/
def textContentSet (content : Option String) : List Char :=
  (content.getD "").data

/-- The `message-content` markup produced for a rendered message. -/
def messageContentHtml (m : ChatMessage) : List Char :=
  escapeHtml (textContentSet m.content)

/-- What a browser displays for the restricted fragment language produced
by `escapeHtml`: the three entities decode to their characters, a `<br>`
tag renders as a line break, and everything else is literal text.  Used to
state that the escape loses nothing and interprets no markup. -/
def decodeTextBr : List Char → List Char
  | '&' :: 'a' :: 'm' :: 'p' :: ';' :: r => '&' :: decodeTextBr r
  | '&' :: 'l' :: 't' :: ';' :: r => '<' :: decodeTextBr r
  | '&' :: 'g' :: 't' :: ';' :: r => '>' :: decodeTextBr r
  | '<' :: 'b' :: 'r' :: '>' :: r => '\n' :: decodeTextBr r
  | c :: rest => c :: decodeTextBr rest
  | [] => []

/-- The produced fragment contains no markup other than `<br>` tags: every
`<` opens a literal `<br>` and no stray `>` occurs outside one. -/
def brOnly : List Char → Bool
  | '<' :: 'b' :: 'r' :: '>' :: r => brOnly r
  | '<' :: _ => false
  | '>' :: _ => false
  | _ :: rest => brOnly rest
  | [] => true

/-- User events that can reach the submit path.  `keyEnter shift` is a
keydown of Enter with the given Shift-modifier state on the input field. -/
inductive UserEvent where
  | clickSubmit
  | keyEnter (shift : Bool)
deriving DecidableEq, Repr

/-- Browser event-delivery model: a disabled button fires no activation and
a disabled input receives no keydown, so a submit can only be triggered
through an enabled control; `handleKeyDown` forwards Enter-without-Shift to
the form's submit event. -/
def submitTriggered : UserEvent → ChatState → Bool
  | .clickSubmit, s => !s.submitDisabled
  | .keyEnter shift, s => !s.inputDisabled && !shift

/-! ### Lemmas about the HTML escape -/

/-- Per-character form of `escapeHtml`, used to reason one character at a
time. -/
def escapeHtmlChar (c : Char) : List Char :=
  if c = '&' then ['&', 'a', 'm', 'p', ';']
  else if c = '<' then ['&', 'l', 't', ';']
  else if c = '>' then ['&', 'g', 't', ';']
  else if c = '\n' then ['<', 'b', 'r', '>']
  else [c]

theorem replaceNewlineBr_append (l₁ l₂ : List Char) :
    replaceNewlineBr (l₁ ++ l₂) = replaceNewlineBr l₁ ++ replaceNewlineBr l₂ := by
  induction l₁ with
  | nil => rfl
  | cons c rest ih => simp [replaceNewlineBr, ih]

theorem serializeText_cons (c : Char) (rest : List Char) :
    serializeText (c :: rest) = serializeTextChar c ++ serializeText rest := rfl

theorem escapeHtml_cons (c : Char) (rest : List Char) :
    escapeHtml (c :: rest) = escapeHtmlChar c ++ escapeHtml rest := by
  show replaceNewlineBr (serializeText (c :: rest)) = _
  rw [serializeText_cons, replaceNewlineBr_append]
  by_cases h1 : c = '&'
  · subst h1; rfl
  by_cases h2 : c = '<'
  · subst h2; rfl
  by_cases h3 : c = '>'
  · subst h3; rfl
  by_cases h4 : c = '\n'
  · subst h4; rfl
  simp only [serializeTextChar, escapeHtmlChar, if_neg h1, if_neg h2, if_neg h3,
    if_neg h4, replaceNewlineBr, List.singleton_append]
  rfl

theorem decodeTextBr_amp (r : List Char) :
    decodeTextBr ('&' :: 'a' :: 'm' :: 'p' :: ';' :: r) = '&' :: decodeTextBr r := rfl

theorem decodeTextBr_ltEsc (r : List Char) :
    decodeTextBr ('&' :: 'l' :: 't' :: ';' :: r) = '<' :: decodeTextBr r := rfl

theorem decodeTextBr_gtEsc (r : List Char) :
    decodeTextBr ('&' :: 'g' :: 't' :: ';' :: r) = '>' :: decodeTextBr r := rfl

theorem decodeTextBr_br (r : List Char) :
    decodeTextBr ('<' :: 'b' :: 'r' :: '>' :: r) = '\n' :: decodeTextBr r := rfl

theorem decodeTextBr_other (c : Char) (r : List Char) (h1 : c ≠ '&') (h2 : c ≠ '<') :
    decodeTextBr (c :: r) = c :: decodeTextBr r := by
  rw [decodeTextBr.eq_def]
  split
  · rename_i heq; injection heq with hc _; exact absurd hc h1
  · rename_i heq; injection heq with hc _; exact absurd hc h1
  · rename_i heq; injection heq with hc _; exact absurd hc h1
  · rename_i heq; injection heq with hc _; exact absurd hc h2
  · rename_i heq; injection heq with hc hr; rw [hc, hr]
  · rename_i heq; exact absurd heq (by simp)

theorem brOnly_amp (r : List Char) :
    brOnly ('&' :: 'a' :: 'm' :: 'p' :: ';' :: r) = brOnly r := rfl

theorem brOnly_ltEsc (r : List Char) :
    brOnly ('&' :: 'l' :: 't' :: ';' :: r) = brOnly r := rfl

theorem brOnly_gtEsc (r : List Char) :
    brOnly ('&' :: 'g' :: 't' :: ';' :: r) = brOnly r := rfl

theorem brOnly_br (r : List Char) :
    brOnly ('<' :: 'b' :: 'r' :: '>' :: r) = brOnly r := rfl

theorem brOnly_other (c : Char) (r : List Char) (h1 : c ≠ '<') (h2 : c ≠ '>') :
    brOnly (c :: r) = brOnly r := by
  rw [brOnly.eq_def]
  split
  · rename_i heq; injection heq with hc _; exact absurd hc h1
  · rename_i heq; injection heq with hc _; exact absurd hc h1
  · rename_i heq; injection heq with hc _; exact absurd hc h2
  · rename_i heq; injection heq with hc hr; rw [hr]
  · rename_i heq; exact absurd heq (by simp)

theorem decodeTextBr_escapeHtml (content : List Char) :
    decodeTextBr (escapeHtml content) = content := by
  induction content with
  | nil => rfl
  | cons c rest ih =>
    rw [escapeHtml_cons]
    by_cases h1 : c = '&'
    · subst h1
      have h : escapeHtmlChar '&' ++ escapeHtml rest =
          '&' :: 'a' :: 'm' :: 'p' :: ';' :: escapeHtml rest := rfl
      rw [h, decodeTextBr_amp, ih]
    by_cases h2 : c = '<'
    · subst h2
      have h : escapeHtmlChar '<' ++ escapeHtml rest =
          '&' :: 'l' :: 't' :: ';' :: escapeHtml rest := rfl
      rw [h, decodeTextBr_ltEsc, ih]
    by_cases h3 : c = '>'
    · subst h3
      have h : escapeHtmlChar '>' ++ escapeHtml rest =
          '&' :: 'g' :: 't' :: ';' :: escapeHtml rest := rfl
      rw [h, decodeTextBr_gtEsc, ih]
    by_cases h4 : c = '\n'
    · subst h4
      have h : escapeHtmlChar '\n' ++ escapeHtml rest =
          '<' :: 'b' :: 'r' :: '>' :: escapeHtml rest := rfl
      rw [h, decodeTextBr_br, ih]
    simp only [escapeHtmlChar, if_neg h1, if_neg h2, if_neg h3, if_neg h4,
      List.singleton_append]
    rw [decodeTextBr_other c _ h1 h2, ih]

theorem brOnly_escapeHtml (content : List Char) :
    brOnly (escapeHtml content) = true := by
  induction content with
  | nil => rfl
  | cons c rest ih =>
    rw [escapeHtml_cons]
    by_cases h1 : c = '&'
    · subst h1
      have h : escapeHtmlChar '&' ++ escapeHtml rest =
          '&' :: 'a' :: 'm' :: 'p' :: ';' :: escapeHtml rest := rfl
      rw [h, brOnly_amp, ih]
    by_cases h2 : c = '<'
    · subst h2
      have h : escapeHtmlChar '<' ++ escapeHtml rest =
          '&' :: 'l' :: 't' :: ';' :: escapeHtml rest := rfl
      rw [h, brOnly_ltEsc, ih]
    by_cases h3 : c = '>'
    · subst h3
      have h : escapeHtmlChar '>' ++ escapeHtml rest =
          '&' :: 'g' :: 't' :: ';' :: escapeHtml rest := rfl
      rw [h, brOnly_gtEsc, ih]
    by_cases h4 : c = '\n'
    · subst h4
      have h : escapeHtmlChar '\n' ++ escapeHtml rest =
          '<' :: 'b' :: 'r' :: '>' :: escapeHtml rest := rfl
      rw [h, brOnly_br, ih]
    simp only [escapeHtmlChar, if_neg h1, if_neg h2, if_neg h3, if_neg h4,
      List.singleton_append]
    rw [brOnly_other c _ h2 h3, ih]

/-! ### Characterization of a submission run -/

/-- No typing indicator among the given children (the normal idle state of
the `chatMessages` container). -/
def noTypingIn (l : List ChatNode) : Bool :=
  l.all (fun n => !isTypingNode n)

theorem removeFirstTyping_append (l₁ l₂ : List ChatNode)
    (h : noTypingIn l₁ = true) :
    removeFirstTyping (l₁ ++ l₂) = l₁ ++ removeFirstTyping l₂ := by
  induction l₁ with
  | nil => rfl
  | cons n rest ih =>
    simp only [noTypingIn, List.all_cons, Bool.and_eq_true, Bool.not_eq_true'] at h
    have h2 : noTypingIn rest = true := by simp [noTypingIn, h.2]
    simp [removeFirstTyping, h.1, ih h2]

/-- The state reached by the straight-line prefix of `handleFormSubmit`
when rendering the user message does not throw. -/
theorem submitPrefix_none (env : Env) (q : String) (s : ChatState)
    (huf : env.userFault = none) :
    submitPrefix env q s =
      ({ inputValue := "", inputHeight := none,
         submitDisabled := true, inputDisabled := true,
         btnIconVisible := false, spinnerVisible := true,
         welcomeVisible := false,
         chatChildren := s.chatChildren ++
           [.message s.nextId ⟨some q, .user, env.now⟩, .typing (s.nextId + 1)],
         conversationHistory := s.conversationHistory,
         timers := s.timers ++ [⟨100, .scrollSettle env.chatMain⟩],
         nextId := s.nextId + 2,
         events := s.events ++ [.hideWelcome, .renderUser (some q), .clearInput,
           .setBusy true, .showTyping] }, none) := by
  simp [submitPrefix, hideWelcomeScreen, addMessage, huf, clearInput,
    setLoadingState, appendTypingIndicator, scrollToBottom, renderEvent]

/-- A full run in the success case: the fetch resolves with a parsed body
and rendering the assistant message does not throw. -/
theorem handleFormSubmit_success (env : Env) (s : ChatState) (data : JsonBody)
    (hq : ¬jsTrim s.inputValue = "") (huf : env.userFault = none)
    (haf : env.aiFault = none) (hf : fetchAnswer env.outcome = .ok data) :
    handleFormSubmit env s =
      ({ inputValue := "", inputHeight := none,
         submitDisabled := false, inputDisabled := false,
         btnIconVisible := true, spinnerVisible := false,
         welcomeVisible := false,
         chatChildren := removeFirstTyping (s.chatChildren ++
           [.message s.nextId ⟨some (jsTrim s.inputValue), .user, env.now⟩,
            .typing (s.nextId + 1),
            .message (s.nextId + 2) ⟨data.answer, .ai, env.now⟩]),
         conversationHistory := s.conversationHistory ++
           [⟨jsTrim s.inputValue, data.answer, env.now⟩],
         timers := s.timers ++ [⟨100, .scrollSettle env.chatMain⟩,
           ⟨100, .scrollSettle env.chatMain⟩],
         nextId := s.nextId + 3,
         events := s.events ++ [.hideWelcome,
           .renderUser (some (jsTrim s.inputValue)), .clearInput, .setBusy true,
           .showTyping, .renderAssistant data.answer, .appendLog, .setBusy false,
           .clearTyping] }, none) := by
  simp only [handleFormSubmit, if_neg hq, submitPrefix_none env _ s huf, hf,
    handleResponse, addMessage, haf, pushHistory, setLoadingState, typingRemove,
    scrollToBottom, renderEvent]
  simp [List.append_assoc]

/-- A full run in which the exchange fails: the fetch rejects, the response
status is not ok, or the success body is unparsable. -/
theorem handleFormSubmit_failure (env : Env) (s : ChatState) (e : JsError)
    (hq : ¬jsTrim s.inputValue = "") (huf : env.userFault = none)
    (hf : fetchAnswer env.outcome = .error e) :
    handleFormSubmit env s =
      ({ inputValue := "", inputHeight := none,
         submitDisabled := false, inputDisabled := false,
         btnIconVisible := true, spinnerVisible := false,
         welcomeVisible := false,
         chatChildren := removeFirstTyping (s.chatChildren ++
           [.message s.nextId ⟨some (jsTrim s.inputValue), .user, env.now⟩,
            .typing (s.nextId + 1),
            .errorNotice (s.nextId + 2) connectionFailureMsg]),
         conversationHistory := s.conversationHistory,
         timers := s.timers ++ [⟨100, .scrollSettle env.chatMain⟩,
           ⟨errorMessageDuration, .removeNode (s.nextId + 2)⟩],
         nextId := s.nextId + 3,
         events := s.events ++ [.hideWelcome,
           .renderUser (some (jsTrim s.inputValue)), .clearInput, .setBusy true,
           .showTyping, .renderError, .setBusy false, .clearTyping] }, none) := by
  simp only [handleFormSubmit, if_neg hq, submitPrefix_none env _ s huf, hf,
    handleError, errorDisplay, setLoadingState, typingRemove]
  simp [List.append_assoc]

/-- A full run in which the fetch succeeds but rendering the assistant
message throws: the exception is caught and handled exactly like a
transport failure, and the history push is never reached. -/
theorem handleFormSubmit_renderFault (env : Env) (s : ChatState)
    (data : JsonBody) (e : JsError)
    (hq : ¬jsTrim s.inputValue = "") (huf : env.userFault = none)
    (haf : env.aiFault = some e) (hf : fetchAnswer env.outcome = .ok data) :
    handleFormSubmit env s =
      ({ inputValue := "", inputHeight := none,
         submitDisabled := false, inputDisabled := false,
         btnIconVisible := true, spinnerVisible := false,
         welcomeVisible := false,
         chatChildren := removeFirstTyping (s.chatChildren ++
           [.message s.nextId ⟨some (jsTrim s.inputValue), .user, env.now⟩,
            .typing (s.nextId + 1),
            .errorNotice (s.nextId + 2) connectionFailureMsg]),
         conversationHistory := s.conversationHistory,
         timers := s.timers ++ [⟨100, .scrollSettle env.chatMain⟩,
           ⟨errorMessageDuration, .removeNode (s.nextId + 2)⟩],
         nextId := s.nextId + 3,
         events := s.events ++ [.hideWelcome,
           .renderUser (some (jsTrim s.inputValue)), .clearInput, .setBusy true,
           .showTyping, .renderError, .setBusy false, .clearTyping] }, none) := by
  simp only [handleFormSubmit, if_neg hq, submitPrefix_none env _ s huf, hf,
    handleResponse, addMessage, haf, handleError, errorDisplay, setLoadingState,
    typingRemove]
  simp [List.append_assoc]

/-- C7: every rendered message content is escaped to literal text — the
browser's reading of the produced fragment (`decodeTextBr`) recovers the
exact text-node content, so no HTML from the content is interpreted, while
each embedded newline becomes a visual `<br>` line break (`brOnly`: the
fragment contains no markup besides those `<br>` tags).  `escapeHtml` is a
total function, so rendering never rejects malformed input. -/
theorem c7_escape_literal_text (m : ChatMessage) :
    decodeTextBr (messageContentHtml m) = textContentSet m.content ∧
      brOnly (messageContentHtml m) = true :=
  ⟨decodeTextBr_escapeHtml _, brOnly_escapeHtml _⟩

/-! ### Concrete inputs for witnesses and counterexamples -/

/-- A concrete idle page state with the question `"2+2?"` typed in. -/
def sampleState : ChatState :=
  { inputValue := "2+2?", inputHeight := none,
    submitDisabled := false, inputDisabled := false,
    btnIconVisible := true, spinnerVisible := false,
    welcomeVisible := true, chatChildren := [], conversationHistory := [],
    timers := [], nextId := 0, events := [] }

/-- A concrete environment in which the backend answers `{"answer": "4"}`
and no DOM call throws. -/
def sampleEnvSuccess : Env :=
  { outcome := .response true (some ⟨some "4", none⟩),
    userFault := none, aiFault := none, chatMain := some 0, now := 0 }

/-- A concrete environment in which the backend returns a non-2xx response
with body `{"error": "bad question"}`. -/
def sampleEnvHttpError : Env :=
  { outcome := .response false (some ⟨none, some "bad question"⟩),
    userFault := none, aiFault := none, chatMain := some 0, now := 0 }

/-! ### C1 — busy-state cleanup -/

/-- C1: for every submission with non-empty trimmed input whose exchange
starts (the user-message render itself does not throw), once the network
exchange settles — success, application error, transport error, or even an
exception raised while rendering the result (`env.aiFault` is arbitrary
here) — the `finally` block has restored the not-busy state: both controls
re-enabled, send icon back, spinner hidden. -/
theorem c1_busy_cleanup (env : Env) (s : ChatState)
    (hq : ¬jsTrim s.inputValue = "") (huf : env.userFault = none) :
    (handleFormSubmit env s).1.submitDisabled = false ∧
      (handleFormSubmit env s).1.inputDisabled = false ∧
      (handleFormSubmit env s).1.btnIconVisible = true ∧
      (handleFormSubmit env s).1.spinnerVisible = false := by
  cases hf : fetchAnswer env.outcome with
  | error e =>
    rw [handleFormSubmit_failure env s e hq huf hf]
    exact ⟨rfl, rfl, rfl, rfl⟩
  | ok data =>
    cases haf : env.aiFault with
    | none =>
      rw [handleFormSubmit_success env s data hq huf haf hf]
      exact ⟨rfl, rfl, rfl, rfl⟩
    | some e =>
      rw [handleFormSubmit_renderFault env s data e hq huf haf hf]
      exact ⟨rfl, rfl, rfl, rfl⟩

/-- Witness for C1 at the concrete success run. -/
theorem c1_busy_cleanup_witness :
    (¬jsTrim sampleState.inputValue = "" ∧ sampleEnvSuccess.userFault = none) ∧
      ((handleFormSubmit sampleEnvSuccess sampleState).1.submitDisabled = false ∧
        (handleFormSubmit sampleEnvSuccess sampleState).1.inputDisabled = false ∧
        (handleFormSubmit sampleEnvSuccess sampleState).1.btnIconVisible = true ∧
        (handleFormSubmit sampleEnvSuccess sampleState).1.spinnerVisible = false) :=
  ⟨⟨by decide, rfl⟩, c1_busy_cleanup sampleEnvSuccess sampleState (by decide) rfl⟩

/-! ### C5 — busy disables the input path -/

/-- C5: the state in which the `ask` is performed (the prefix of
`handleFormSubmit` completed without throwing) has both controls disabled
and the send icon replaced by the spinner, and in that state no user event
can trigger a second submit through the normal input path; conversely
`setLoadingState false` re-enables both controls and restores the icon. -/
theorem c5_busy_invariant :
    (∀ (env : Env) (q : String) (s sAsk : ChatState),
        submitPrefix env q s = (sAsk, none) →
          sAsk.submitDisabled = true ∧ sAsk.inputDisabled = true ∧
          sAsk.btnIconVisible = false ∧ sAsk.spinnerVisible = true ∧
          ∀ ev : UserEvent, submitTriggered ev sAsk = false) ∧
      (∀ s : ChatState,
        (setLoadingState false s).submitDisabled = false ∧
        (setLoadingState false s).inputDisabled = false ∧
        (setLoadingState false s).btnIconVisible = true ∧
        (setLoadingState false s).spinnerVisible = false) := by
  constructor
  · intro env q s sAsk hp
    cases huf : env.userFault with
    | some e =>
      exfalso
      simp [submitPrefix, hideWelcomeScreen, addMessage, huf] at hp
    | none =>
      rw [submitPrefix_none env q s huf] at hp
      injection hp with h1 _
      subst h1
      refine ⟨rfl, rfl, rfl, rfl, ?_⟩
      intro ev
      cases ev <;> simp [submitTriggered]
  · intro s
    exact ⟨rfl, rfl, rfl, rfl⟩

/-- Witness for C5 at a concrete prefix state. -/
theorem c5_busy_invariant_witness :
    (submitPrefix sampleEnvSuccess "2+2?" sampleState =
        ({ inputValue := "", inputHeight := none,
           submitDisabled := true, inputDisabled := true,
           btnIconVisible := false, spinnerVisible := true,
           welcomeVisible := false,
           chatChildren := [.message 0 ⟨some "2+2?", .user, 0⟩, .typing 1],
           conversationHistory := [],
           timers := [⟨100, .scrollSettle (some 0)⟩],
           nextId := 2,
           events := [.hideWelcome, .renderUser (some "2+2?"), .clearInput,
             .setBusy true, .showTyping] }, none)) ∧
      (∀ ev : UserEvent, submitTriggered ev
        { inputValue := "", inputHeight := none,
          submitDisabled := true, inputDisabled := true,
          btnIconVisible := false, spinnerVisible := true,
          welcomeVisible := false,
          chatChildren := [.message 0 ⟨some "2+2?", .user, 0⟩, .typing 1],
          conversationHistory := [],
          timers := [⟨100, .scrollSettle (some 0)⟩],
          nextId := 2,
          events := [.hideWelcome, .renderUser (some "2+2?"), .clearInput,
            .setBusy true, .showTyping] } = false) :=
  ⟨by decide,
   (c5_busy_invariant.1 sampleEnvSuccess "2+2?" sampleState _ (by decide)).2.2.2.2⟩

/-! ### C6 — empty submissions are silent no-ops -/

/-- C6: when the trimmed input is empty, `handleFormSubmit` returns the
state completely unchanged and throws nothing: no message is rendered, no
fetch oracle branch is consulted, no busy transition, no timer, no event,
and no error surfaces. -/
theorem c6_empty_submit_noop (env : Env) (s : ChatState)
    (hq : jsTrim s.inputValue = "") :
    handleFormSubmit env s = (s, none) := by
  simp [handleFormSubmit, hq]

/-- Witness for C6 on a whitespace-only input. -/
theorem c6_empty_submit_noop_witness :
    jsTrim "  \t\n " = "" ∧
      handleFormSubmit sampleEnvSuccess { sampleState with inputValue := "  \t\n " } =
        ({ sampleState with inputValue := "  \t\n " }, none) :=
  ⟨by decide,
   c6_empty_submit_noop sampleEnvSuccess { sampleState with inputValue := "  \t\n " }
     (by decide)⟩

/-! ### C2 — typing-placeholder lifecycle and orchestration order -/

/-- Whether an event is the `TypingIndicator.remove()` call. -/
def isClearTypingEv : Event → Bool
  | .clearTyping => true
  | _ => false

/-- Whether an event renders the exchange's result (assistant message or
error notice). -/
def isRenderResultEv : Event → Bool
  | .renderAssistant _ => true
  | .renderError => true
  | _ => false

/-- The per-exchange ordering asserted by the claim: the typing placeholder
is cleared strictly before the result is rendered, and the final action of
the submission is setting not-busy. -/
def claimedTypingOrder (tr : List Event) : Bool :=
  (tr.findIdx isClearTypingEv < tr.findIdx isRenderResultEv) &&
    decide (tr.getLast? = some (.setBusy false))

/-- C2 counterexample: in the concrete successful exchange below the code
renders the assistant message while the typing placeholder is still
attached, removes the placeholder only as the very last action, and sets
not-busy second to last — the ordering asserted by the claim is false on
this run (and the placeholder is present after the response is rendered
while busy is still true, refuting the claimed iff). -/
theorem c2_counterexample :
    (handleFormSubmit sampleEnvSuccess sampleState).1.events =
      [.hideWelcome, .renderUser (some "2+2?"), .clearInput, .setBusy true,
       .showTyping, .renderAssistant (some "4"), .appendLog, .setBusy false,
       .clearTyping] ∧
      claimedTypingOrder (handleFormSubmit sampleEnvSuccess sampleState).1.events =
        false := by
  constructor
  · decide
  · decide

/-- The result-phase events of an exchange, by outcome: on success the
assistant message is rendered and the log entry appended; on any failure —
including an exception from rendering the assistant message — the fixed
error notice is rendered. -/
def midEvents (env : Env) : List Event :=
  match fetchAnswer env.outcome with
  | .ok data =>
    match env.aiFault with
    | none => [.renderAssistant data.answer, .appendLog]
    | some _ => [.renderError]
  | .error _ => [.renderError]

/-- C2 amended: the orchestration sequence per submission is: hide welcome
panel → render user's message → clear input → set busy → show typing →
perform `ask` → on success render the assistant message and append to the
log (on failure render the fixed error notice) → set not-busy → clear
typing last.  The typing placeholder is thus removed after the result is
rendered and after busy is cleared (idempotently, after every outcome),
not before the result as the claim stated. -/
theorem c2_amended_sequence (env : Env) (s : ChatState)
    (hq : ¬jsTrim s.inputValue = "") (huf : env.userFault = none) :
    (handleFormSubmit env s).1.events =
      s.events ++ [.hideWelcome, .renderUser (some (jsTrim s.inputValue)),
        .clearInput, .setBusy true, .showTyping] ++ midEvents env ++
        [.setBusy false, .clearTyping] := by
  cases hf : fetchAnswer env.outcome with
  | error e =>
    rw [handleFormSubmit_failure env s e hq huf hf]
    simp [midEvents, hf]
  | ok data =>
    cases haf : env.aiFault with
    | none =>
      rw [handleFormSubmit_success env s data hq huf haf hf]
      simp [midEvents, hf, haf]
    | some e =>
      rw [handleFormSubmit_renderFault env s data e hq huf haf hf]
      simp [midEvents, hf, haf]

/-- Witness for the amended C2 at the concrete success run. -/
theorem c2_amended_sequence_witness :
    (¬jsTrim sampleState.inputValue = "" ∧ sampleEnvSuccess.userFault = none) ∧
      (handleFormSubmit sampleEnvSuccess sampleState).1.events =
        sampleState.events ++ [.hideWelcome, .renderUser (some (jsTrim sampleState.inputValue)),
          .clearInput, .setBusy true, .showTyping] ++ midEvents sampleEnvSuccess ++
          [.setBusy false, .clearTyping] :=
  ⟨⟨by decide, rfl⟩,
   c2_amended_sequence sampleEnvSuccess sampleState (by decide) rfl⟩

/-! ### C3 — malformed success bodies -/

/-- Whether a chat node is a rendered assistant message. -/
def isAiMessage : ChatNode → Bool
  | .message _ m => match m.sender with
    | .ai => true
    | .user => false
  | _ => false

/-- Whether a chat node is an error notice. -/
def isErrorNotice : ChatNode → Bool
  | .errorNotice _ _ => true
  | _ => false

/-- Concrete environment: 2xx status, well-formed JSON body with no
`answer` field (`data.answer` reads as `undefined`). -/
def envMissingAnswer : Env :=
  { outcome := .response true (some ⟨none, none⟩), userFault := none,
    aiFault := none, chatMain := some 0, now := 0 }

/-- C3 counterexample: a success response whose well-formed body merely
lacks the `answer` field is NOT propagated as a transport-level failure —
the run renders exactly one assistant message (with undefined content),
shows no error notice, and even appends a history entry with an undefined
answer. -/
theorem c3_counterexample :
    (handleFormSubmit envMissingAnswer sampleState).1.chatChildren.countP
        isAiMessage = 1 ∧
      (handleFormSubmit envMissingAnswer sampleState).1.chatChildren.countP
        isErrorNotice = 0 ∧
      (handleFormSubmit envMissingAnswer sampleState).1.conversationHistory =
        [⟨"2+2?", none, 0⟩] := by
  refine ⟨?_, ?_, ?_⟩ <;> decide

/-- C3 amended: a 2xx response whose body has invalid encoding does
propagate as a failure indistinguishable from a transport failure — the
entire run is state-for-state identical to one whose `fetch` rejects.  But
a 2xx response whose well-formed body merely lacks the `answer` field is
not detected: an assistant message with undefined content is rendered and
a history entry with an undefined answer is appended, with no failure. -/
theorem c3_amended_malformed_body :
    (∀ (uf af : Option JsError) (cm : Option Nat) (t : Nat) (s : ChatState),
        handleFormSubmit ⟨.response true none, uf, af, cm, t⟩ s =
          handleFormSubmit ⟨.networkFailure, uf, af, cm, t⟩ s) ∧
      (∀ (env : Env) (s : ChatState) (errF : Option String),
        ¬jsTrim s.inputValue = "" → env.userFault = none →
        env.aiFault = none →
        env.outcome = .response true (some ⟨none, errF⟩) →
        noTypingIn s.chatChildren = true →
        (handleFormSubmit env s).1.chatChildren = s.chatChildren ++
            [.message s.nextId ⟨some (jsTrim s.inputValue), .user, env.now⟩,
             .message (s.nextId + 2) ⟨none, .ai, env.now⟩] ∧
          (handleFormSubmit env s).1.conversationHistory =
            s.conversationHistory ++ [⟨jsTrim s.inputValue, none, env.now⟩]) := by
  constructor
  · intro uf af cm t s
    by_cases hq : jsTrim s.inputValue = ""
    · simp [handleFormSubmit, hq]
    · cases uf with
      | some e =>
        simp [handleFormSubmit, if_neg hq, submitPrefix, hideWelcomeScreen,
          addMessage]
      | none =>
        rw [handleFormSubmit_failure ⟨.response true none, none, af, cm, t⟩ s
              (.syntaxError "Unexpected end of JSON input") hq rfl rfl,
            handleFormSubmit_failure ⟨.networkFailure, none, af, cm, t⟩ s
              (.typeError "Failed to fetch") hq rfl rfl]
  · intro env s errF hq huf haf ho hnt
    have hf : fetchAnswer env.outcome = .ok ⟨none, errF⟩ := by rw [ho]; rfl
    rw [handleFormSubmit_success env s ⟨none, errF⟩ hq huf haf hf]
    refine ⟨?_, rfl⟩
    rw [removeFirstTyping_append _ _ hnt]
    simp [removeFirstTyping, isTypingNode]

/-- Witness for the amended C3: the unparsable-body run coincides with the
transport-failure run, and the missing-field run on the concrete state
renders the undefined-content assistant message. -/
theorem c3_amended_malformed_body_witness :
    (handleFormSubmit ⟨.response true none, none, none, some 0, 0⟩ sampleState =
        handleFormSubmit ⟨.networkFailure, none, none, some 0, 0⟩ sampleState) ∧
      ((¬jsTrim sampleState.inputValue = "" ∧
          envMissingAnswer.outcome = .response true (some ⟨none, none⟩) ∧
          noTypingIn sampleState.chatChildren = true) ∧
        ((handleFormSubmit envMissingAnswer sampleState).1.chatChildren =
            sampleState.chatChildren ++
              [.message sampleState.nextId
                 ⟨some (jsTrim sampleState.inputValue), .user, envMissingAnswer.now⟩,
               .message (sampleState.nextId + 2) ⟨none, .ai, envMissingAnswer.now⟩] ∧
          (handleFormSubmit envMissingAnswer sampleState).1.conversationHistory =
            sampleState.conversationHistory ++
              [⟨jsTrim sampleState.inputValue, none, envMissingAnswer.now⟩])) :=
  ⟨c3_amended_malformed_body.1 none none (some 0) 0 sampleState,
   ⟨by decide, rfl, by decide⟩,
   c3_amended_malformed_body.2 envMissingAnswer sampleState none (by decide) rfl rfl
     rfl (by decide)⟩

/-! ### C4 — timer callbacks and missing targets -/

/-- Concrete environment in which the surrounding view was torn down before
the response arrived: `querySelector(".chat-main")` already returns `null`
when `scrollToBottom` schedules its timer. -/
def envDetachedView : Env :=
  { outcome := .response true (some ⟨some "4", none⟩), userFault := none,
    aiFault := none, chatMain := none, now := 0 }

/-- C4 counterexample: the program schedules a scroll-settle timer that
captured a `null` `querySelector` result, and firing that timer on a view
with no attached nodes — its target missing — is a `TypeError` fault, not
a no-op. -/
theorem c4_counterexample :
    Timer.mk 100 (.scrollSettle none) ∈
        (handleFormSubmit envDetachedView sampleState).1.timers ∧
      fireTimer (.scrollSettle none) ⟨[], []⟩ =
        .error (.typeError "Cannot set properties of null (setting scrollTop)") := by
  refine ⟨?_, rfl⟩
  decide

theorem filter_bne_of_not_mem (t : Nat) (l : List Nat) (h : t ∉ l) :
    l.filter (fun n => n != t) = l := by
  induction l with
  | nil => rfl
  | cons a rest ih =>
    have h1 : ¬t = a := fun hh => h (hh ▸ List.mem_cons_self a rest)
    have h2 : t ∉ rest := fun hh => h (List.mem_cons_of_mem a hh)
    have hb : (a != t) = true := bne_iff_ne.mpr (fun hh => h1 hh.symm)
    simp [List.filter, hb, ih h2]

/-- C4 amended: every timer callback whose captured element reference was
non-null when scheduled tolerates its target being gone by the time it
fires — firing is a no-op, never a fault (this covers the error-notice
expiry unconditionally, and the scroll-settle delay whenever the scroll
container still existed at scheduling time).  Only a scroll timer that
captured a `null` lookup — container already missing when scheduled —
faults, as the counterexample shows. -/
theorem c4_amended_timer_tolerance :
    (∀ (t : Nat) (v : ViewState), t ∉ v.attached →
        fireTimer (.removeNode t) v = .ok v) ∧
      (∀ (n : Nat) (v : ViewState), n ∉ v.attached →
        fireTimer (.scrollSettle (some n)) v = .ok v) := by
  constructor
  · intro t v ht
    show Except.ok { v with attached := v.attached.filter (fun n => n != t) } =
      Except.ok v
    rw [filter_bne_of_not_mem t v.attached ht]
  · intro n v hn
    show Except.ok (if n ∈ v.attached then { v with scrolled := n :: v.scrolled } else v) =
      Except.ok v
    rw [if_neg hn]

/-- Witness for the amended C4 on concrete missing targets. -/
theorem c4_amended_timer_tolerance_witness :
    fireTimer (.removeNode 5) ⟨[1, 2], []⟩ = .ok ⟨[1, 2], []⟩ ∧
      fireTimer (.scrollSettle (some 5)) ⟨[1, 2], []⟩ = .ok ⟨[1, 2], []⟩ :=
  ⟨c4_amended_timer_tolerance.1 5 ⟨[1, 2], []⟩ (by decide),
   c4_amended_timer_tolerance.2 5 ⟨[1, 2], []⟩ (by decide)⟩

/-! ### C8 — failed exchanges -/

/-- A failed exchange outcome in the claim's sense: a network-level failure
or a non-2xx response. -/
def failureOutcome : FetchOutcome → Bool
  | .networkFailure => true
  | .response ok _ => !ok

theorem fetchAnswer_error_of_failureOutcome (o : FetchOutcome)
    (h : failureOutcome o = true) : ∃ e, fetchAnswer o = .error e := by
  cases o with
  | networkFailure => exact ⟨_, rfl⟩
  | response ok body =>
    cases ok with
    | true => simp [failureOutcome] at h
    | false =>
      cases body with
      | none => exact ⟨_, rfl⟩
      | some data => exact ⟨_, rfl⟩

/-- C8: on every failed exchange (non-2xx response or network failure) no
assistant message is rendered — the container gains exactly the user's
message and one error notice with the fixed connection-failure text; a
single 5000 ms timer is scheduled whose firing removes exactly that notice
(self-removal); the history is untouched; and the user-visible handling
does not depend on the underlying error detail (`handleError` is constant
in the error), which is therefore only available to the diagnostic log. -/
theorem c8_failure_fixed_notice (env : Env) (s : ChatState)
    (hq : ¬jsTrim s.inputValue = "") (huf : env.userFault = none)
    (hfo : failureOutcome env.outcome = true)
    (hnt : noTypingIn s.chatChildren = true) :
    (handleFormSubmit env s).1.chatChildren = s.chatChildren ++
        [.message s.nextId ⟨some (jsTrim s.inputValue), .user, env.now⟩,
         .errorNotice (s.nextId + 2) connectionFailureMsg] ∧
      (handleFormSubmit env s).1.timers = s.timers ++
        [⟨100, .scrollSettle env.chatMain⟩, ⟨5000, .removeNode (s.nextId + 2)⟩] ∧
      (handleFormSubmit env s).1.conversationHistory = s.conversationHistory ∧
      (∀ v : ViewState, fireTimer (.removeNode (s.nextId + 2)) v =
        .ok { v with attached := v.attached.filter (fun n => n != s.nextId + 2) }) ∧
      (∀ (e e' : JsError) (s₂ : ChatState), handleError e s₂ = handleError e' s₂) := by
  obtain ⟨e, hf⟩ := fetchAnswer_error_of_failureOutcome env.outcome hfo
  rw [handleFormSubmit_failure env s e hq huf hf]
  refine ⟨?_, rfl, rfl, fun v => rfl, fun e₁ e₂ s₂ => rfl⟩
  rw [removeFirstTyping_append _ _ hnt]
  simp [removeFirstTyping, isTypingNode]

/-- Witness for C8 on the spec's concrete example: a non-2xx response with
body containing `"bad question"`. -/
theorem c8_failure_fixed_notice_witness :
    (¬jsTrim sampleState.inputValue = "" ∧
        failureOutcome sampleEnvHttpError.outcome = true ∧
        noTypingIn sampleState.chatChildren = true) ∧
      ((handleFormSubmit sampleEnvHttpError sampleState).1.chatChildren =
          sampleState.chatChildren ++
            [.message sampleState.nextId
               ⟨some (jsTrim sampleState.inputValue), .user, sampleEnvHttpError.now⟩,
             .errorNotice (sampleState.nextId + 2) connectionFailureMsg] ∧
        (handleFormSubmit sampleEnvHttpError sampleState).1.timers =
          sampleState.timers ++
            [⟨100, .scrollSettle sampleEnvHttpError.chatMain⟩,
             ⟨5000, .removeNode (sampleState.nextId + 2)⟩]) :=
  ⟨⟨by decide, rfl, by decide⟩,
   (c8_failure_fixed_notice sampleEnvHttpError sampleState (by decide) rfl rfl
      (by decide)).1,
   (c8_failure_fixed_notice sampleEnvHttpError sampleState (by decide) rfl rfl
      (by decide)).2.1⟩

/-! ### C9 — successful exchanges and the conversation log -/

/-- The run treats the prior conversation history as opaque: it is carried
through unchanged with the run's new entries appended, and no other part
of the result depends on it (the log is append-only and never read back). -/
theorem handleFormSubmit_history_independent (env : Env) (s : ChatState)
    (h : List LogEntry) :
    handleFormSubmit env { s with conversationHistory := h } =
      (let r := handleFormSubmit env { s with conversationHistory := [] }
       ({ r.1 with conversationHistory := h ++ r.1.conversationHistory }, r.2)) := by
  by_cases hq : jsTrim s.inputValue = ""
  · simp [handleFormSubmit, hq]
  · cases huf : env.userFault with
    | some e =>
      simp [handleFormSubmit, hq, submitPrefix, hideWelcomeScreen, addMessage, huf]
    | none =>
      cases hf : fetchAnswer env.outcome with
      | error e =>
        rw [handleFormSubmit_failure env { s with conversationHistory := h } e hq huf hf,
            handleFormSubmit_failure env { s with conversationHistory := [] } e hq huf hf]
        simp
      | ok data =>
        cases haf : env.aiFault with
        | none =>
          rw [handleFormSubmit_success env { s with conversationHistory := h } data hq huf haf hf,
              handleFormSubmit_success env { s with conversationHistory := [] } data hq huf haf hf]
          simp
        | some e =>
          rw [handleFormSubmit_renderFault env { s with conversationHistory := h } data e hq huf haf hf,
              handleFormSubmit_renderFault env { s with conversationHistory := [] } data e hq huf haf hf]
          simp

/-- C9: for a success response whose body's `answer` is `a`, exactly one
assistant message with content `a` is rendered (the container gains
precisely the user message and that one assistant message) and exactly one
history entry `(question, a, timestamp)` is appended; moreover the log is
append-only and never read back — the whole run is independent of the
prior history except for appending to it. -/
theorem c9_success_renders_and_logs_once (env : Env) (s : ChatState)
    (a : String) (errF : Option String)
    (hq : ¬jsTrim s.inputValue = "") (huf : env.userFault = none)
    (haf : env.aiFault = none)
    (ho : env.outcome = .response true (some ⟨some a, errF⟩))
    (hnt : noTypingIn s.chatChildren = true) :
    ((handleFormSubmit env s).1.chatChildren = s.chatChildren ++
        [.message s.nextId ⟨some (jsTrim s.inputValue), .user, env.now⟩,
         .message (s.nextId + 2) ⟨some a, .ai, env.now⟩] ∧
      (handleFormSubmit env s).1.conversationHistory =
        s.conversationHistory ++ [⟨jsTrim s.inputValue, some a, env.now⟩]) ∧
      (∀ (env₂ : Env) (s₂ : ChatState) (hist : List LogEntry),
        handleFormSubmit env₂ { s₂ with conversationHistory := hist } =
          (let r := handleFormSubmit env₂ { s₂ with conversationHistory := [] }
           ({ r.1 with conversationHistory := hist ++ r.1.conversationHistory },
            r.2))) := by
  refine ⟨?_, fun env₂ s₂ hist => handleFormSubmit_history_independent env₂ s₂ hist⟩
  have hf : fetchAnswer env.outcome = .ok ⟨some a, errF⟩ := by rw [ho]; rfl
  rw [handleFormSubmit_success env s ⟨some a, errF⟩ hq huf haf hf]
  refine ⟨?_, rfl⟩
  rw [removeFirstTyping_append _ _ hnt]
  simp [removeFirstTyping, isTypingNode]

/-- Witness for C9 on the spec's scenario: question `"2+2?"`, response
`(answer := "4")`. -/
theorem c9_success_renders_and_logs_once_witness :
    (¬jsTrim sampleState.inputValue = "" ∧
        sampleEnvSuccess.outcome = .response true (some ⟨some "4", none⟩) ∧
        noTypingIn sampleState.chatChildren = true) ∧
      ((handleFormSubmit sampleEnvSuccess sampleState).1.chatChildren =
          sampleState.chatChildren ++
            [.message sampleState.nextId
               ⟨some (jsTrim sampleState.inputValue), .user, sampleEnvSuccess.now⟩,
             .message (sampleState.nextId + 2) ⟨some "4", .ai, sampleEnvSuccess.now⟩] ∧
        (handleFormSubmit sampleEnvSuccess sampleState).1.conversationHistory =
          sampleState.conversationHistory ++
            [⟨jsTrim sampleState.inputValue, some "4", sampleEnvSuccess.now⟩]) :=
  ⟨⟨by decide, rfl, by decide⟩,
   (c9_success_renders_and_logs_once sampleEnvSuccess sampleState "4" none
      (by decide) rfl rfl rfl (by decide)).1⟩

/-! ### C10 — exceptions thrown by the rendering/logging step -/

/-- Concrete environment whose fetch succeeds but whose assistant-message
DOM render throws. -/
def sampleEnvRenderFault : Env :=
  { outcome := .response true (some ⟨some "4", none⟩), userFault := none,
    aiFault := some (.err "render failed"), chatMain := some 0, now := 0 }

/-- C10: if the fetch succeeds but `handleResponse` throws while rendering,
the exception is caught and the same fixed connection-failure notice is
shown as for a network failure, no assistant message survives, and no
history entry is appended (the push follows the render, so the log is
unchanged on any error); indeed the entire resulting run coincides with
the run whose `fetch` rejects outright. -/
theorem c10_render_fault_like_network_failure (env : Env) (s : ChatState)
    (data : JsonBody) (e : JsError)
    (hq : ¬jsTrim s.inputValue = "") (huf : env.userFault = none)
    (haf : env.aiFault = some e) (hf : fetchAnswer env.outcome = .ok data)
    (hnt : noTypingIn s.chatChildren = true) :
    (handleFormSubmit env s).1.chatChildren = s.chatChildren ++
        [.message s.nextId ⟨some (jsTrim s.inputValue), .user, env.now⟩,
         .errorNotice (s.nextId + 2) connectionFailureMsg] ∧
      (handleFormSubmit env s).1.conversationHistory = s.conversationHistory ∧
      handleFormSubmit env s =
        handleFormSubmit { env with outcome := .networkFailure } s := by
  rw [handleFormSubmit_renderFault env s data e hq huf haf hf]
  refine ⟨?_, rfl, ?_⟩
  · rw [removeFirstTyping_append _ _ hnt]
    simp [removeFirstTyping, isTypingNode]
  · rw [handleFormSubmit_failure { env with outcome := .networkFailure } s
        (.typeError "Failed to fetch") hq huf rfl]

/-- Witness for C10 at the concrete render-fault run. -/
theorem c10_render_fault_like_network_failure_witness :
    (¬jsTrim sampleState.inputValue = "" ∧
        sampleEnvRenderFault.aiFault = some (.err "render failed") ∧
        fetchAnswer sampleEnvRenderFault.outcome = .ok ⟨some "4", none⟩ ∧
        noTypingIn sampleState.chatChildren = true) ∧
      ((handleFormSubmit sampleEnvRenderFault sampleState).1.chatChildren =
          sampleState.chatChildren ++
            [.message sampleState.nextId
               ⟨some (jsTrim sampleState.inputValue), .user, sampleEnvRenderFault.now⟩,
             .errorNotice (sampleState.nextId + 2) connectionFailureMsg] ∧
        (handleFormSubmit sampleEnvRenderFault sampleState).1.conversationHistory =
          sampleState.conversationHistory) :=
  ⟨⟨by decide, rfl, rfl, by decide⟩,
   (c10_render_fault_like_network_failure sampleEnvRenderFault sampleState
      ⟨some "4", none⟩ (.err "render failed") (by decide) rfl rfl rfl (by decide)).1,
   (c10_render_fault_like_network_failure sampleEnvRenderFault sampleState
      ⟨some "4", none⟩ (.err "render failed") (by decide) rfl rfl rfl (by decide)).2.1⟩

end ChatApp
